import Mathlib

/-!
Shallow embedding of the parking-lot reservation manager
(src/models.py and src/app.py) and verification of its specification.

Modelling conventions:
* SQLAlchemy tables become Lean lists of records; the auto-increment
  primary-key generators become explicit `next_*_id` counters in the state.
* Timestamps are rationals (seconds since an arbitrary epoch); `datetime`
  subtraction followed by `/3600` becomes rational arithmetic, so elapsed
  hours are fractional exactly as in the source.
* Python `round(x, 2)` becomes `round (x * 100) / 100` over ℚ with
  the Mathlib `round` (round to nearest).
* A request handler becomes a function `DBState → args → Result × DBState`.
  `db.session.commit()` wrapped in `try/except ... rollback` is modelled by
  a `commitOk : Bool` argument: when it is `false`, the handler returns the
  unchanged pre-state, as the rollback leaves the database.
* `models.py` line 34 declares
  `entry_time = db.Column(db.DateTime, nullable=False, default=datetime.now())`:
  the default value is the *call result* of `datetime.now()` evaluated once
  when `models.py` is imported, so every inserted booking receives the same
  fixed timestamp.  The state therefore carries `boot_time`, the instant at
  which the module was imported, and bookings are created with
  `entry_time = boot_time`.
-/

/-- User table (src/models.py lines 7-12). -/
structure User where
  id : Nat
  username : String
  password : String
  is_admin : Bool
deriving Repr, DecidableEq

/-- ParkingLot table (src/models.py lines 14-20). -/
structure ParkingLot where
  id : Nat
  name : String
  location : String
  total_spots : Nat
  price_per_hour : ℚ
deriving Repr, DecidableEq

/-- ParkingSpot table (src/models.py lines 22-27). -/
structure ParkingSpot where
  id : Nat
  spot_number : String
  lot_id : Nat
  is_occupied : Bool
deriving Repr, DecidableEq

/-- ParkingBooking table (src/models.py lines 29-37).  `entry_time` is
non-null with the (import-time evaluated) default; `exit_time` and
`total_charge` are nullable, hence `Option`.  `status` is the literal
string stored in the row. -/
structure ParkingBooking where
  id : Nat
  user_id : Nat
  spot_id : Nat
  vehicle_number : String
  entry_time : ℚ
  exit_time : Option ℚ
  total_charge : Option ℚ
  status : String
deriving Repr, DecidableEq

/-- The whole persistent state: the four tables, the auto-increment
counters, and `boot_time`, the timestamp captured by the
`default=datetime.now()` expression when src/models.py was imported. -/
structure DBState where
  users : List User
  lots : List ParkingLot
  spots : List ParkingSpot
  bookings : List ParkingBooking
  next_lot_id : Nat
  next_spot_id : Nat
  next_booking_id : Nat
  boot_time : ℚ
deriving Repr, DecidableEq

/-- Session cookie contents set at login (src/app.py lines 49-51):
`user_id` and `is_admin`.  `none` models a request with no logged-in
session. -/
structure SessionData where
  user_id : Nat
  is_admin : Bool
deriving Repr, DecidableEq

/-- Python `round(x, 2)`: round to the nearest multiple of 1/100. -/
def roundTo2 (q : ℚ) : ℚ := ((round (q * 100) : ℤ) : ℚ) / 100

/-- The charge computed at checkout (src/app.py lines 199-202):
`hours_parked = (exit_time - entry_time).total_seconds() / 3600` and
`total_charge = round(hours_parked * price_per_hour, 2)`. -/
def chargeFn (entry price now : ℚ) : ℚ := roundTo2 ((now - entry) / 3600 * price)

/-- The filter used by `book_spot` (src/app.py lines 163-166):
`ParkingSpot.query.filter_by(lot_id=lot_id, is_occupied=False)`. -/
def spotFree (lot_id : Nat) (sp : ParkingSpot) : Bool :=
  sp.lot_id == lot_id && sp.is_occupied == false

/-- Number of free spots of a lot in a state. -/
def freeCount (s : DBState) (lot_id : Nat) : Nat :=
  (s.spots.filter (spotFree lot_id)).length

/-- The count used by `delete_lot` (src/app.py line 227):
`ParkingSpot.query.filter_by(lot_id=lot.id, is_occupied=True).count()`. -/
def occupiedCount (s : DBState) (lot_id : Nat) : Nat :=
  (s.spots.filter (fun sp => sp.lot_id == lot_id && sp.is_occupied == true)).length

/-- Zero-padding of `f"{i:03d}"` (src/app.py line 119): pad with zeros to
at least three digits. -/
def pad3 (n : Nat) : String :=
  if n < 10 then "00" ++ toString n
  else if n < 100 then "0" ++ toString n
  else toString n

inductive BookResult where
  | booked
  | noAvailability
  | commitError
deriving Repr, DecidableEq

inductive ExitResult where
  | completed (charge : ℚ)
  | unauthorized
  | notFound
  | internalError
  | commitError
deriving Repr, DecidableEq

inductive DeleteResult where
  | deleted
  | conflict
  | notFound
deriving Repr, DecidableEq

inductive AddLotResult where
  | added
  | commitError
  | authError
deriving Repr, DecidableEq

/-- Handler `book_spot` (src/app.py lines 155-188), POST branch.  The
first spot of the lot with `is_occupied=False` is claimed; the booking row
is inserted with the column defaults of src/models.py lines 34-37
(`entry_time = boot_time`, `status = "active"`, `exit_time` and
`total_charge` NULL).  The spot flag flip and the insert go through the
single `db.session.commit()` on line 178; on failure the rollback on line
182 restores the pre-state. -/
def book_spot (s : DBState) (sess_user_id lot_id : Nat) (vehicle_number : String)
    (commitOk : Bool) : BookResult × DBState :=
  match s.spots.find? (spotFree lot_id) with
  | none => (.noAvailability, s)
  | some available_spot =>
    let booking : ParkingBooking :=
      { id := s.next_booking_id
        user_id := sess_user_id
        spot_id := available_spot.id
        vehicle_number := vehicle_number
        entry_time := s.boot_time
        exit_time := none
        total_charge := none
        status := "active" }
    let s' : DBState :=
      { s with
        spots := s.spots.map (fun sp =>
          if sp.id == available_spot.id then { sp with is_occupied := true } else sp)
        bookings := s.bookings ++ [booking]
        next_booking_id := s.next_booking_id + 1 }
    if commitOk then (.booked, s') else (.commitError, s)

/-- Handler `exit_parking` (src/app.py lines 190-213).  `get_or_404`
becomes the `notFound` branch; the ownership check on line 195 precedes
every mutation; the four field writes (lines 199-204) and the spot flag
reset go through the single commit on line 207, rolled back on line 210 on
failure.  The `spot`/`lot` relationship dereferences of line 201 become
explicit lookups; a dangling foreign key (impossible for committed rows)
is mapped to `internalError` with no state change. -/
def exit_parking (s : DBState) (sess_user_id booking_id : Nat) (now : ℚ)
    (commitOk : Bool) : ExitResult × DBState :=
  match s.bookings.find? (fun b => b.id == booking_id) with
  | none => (.notFound, s)
  | some booking =>
    if booking.user_id != sess_user_id then (.unauthorized, s)
    else
      match s.spots.find? (fun sp => sp.id == booking.spot_id) with
      | none => (.internalError, s)
      | some spot =>
        match s.lots.find? (fun l => l.id == spot.lot_id) with
        | none => (.internalError, s)
        | some lot =>
          let total_charge := chargeFn booking.entry_time lot.price_per_hour now
          let booking' : ParkingBooking :=
            { booking with
              exit_time := some now
              total_charge := some total_charge
              status := "completed" }
          let s' : DBState :=
            { s with
              bookings := s.bookings.map (fun b =>
                if b.id == booking_id then booking' else b)
              spots := s.spots.map (fun sp =>
                if sp.id == booking.spot_id then { sp with is_occupied := false } else sp) }
          if commitOk then (.completed total_charge, s') else (.commitError, s)

/-- Handler `delete_lot` (src/app.py lines 224-238).  `get_or_404` becomes
the `notFound` branch; if any spot of the lot is occupied the handler
returns with a warning and no change; otherwise it bulk-deletes all spots of the lot (line 234) and then the lot row (line 235) in one commit. -/
def delete_lot (s : DBState) (lot_id : Nat) : DeleteResult × DBState :=
  match s.lots.find? (fun l => l.id == lot_id) with
  | none => (.notFound, s)
  | some lot =>
    if 0 < occupiedCount s lot.id then (.conflict, s)
    else
      (.deleted,
        { s with
          spots := s.spots.filter (fun sp => !(sp.lot_id == lot.id))
          lots := s.lots.eraseP (fun l => l.id == lot.id) })

/-- Handler `add_lot` (src/app.py lines 101-133), POST branch.  The lot
row is committed first (line 115) to obtain its id; the spot rows
numbered `f"{i:03d}"` for `i in range(1, total_spots + 1)` are committed
second (line 122).  `commit1Ok`/`commit2Ok` model the two commits: if the
second fails, its rollback undoes only the spot inserts, leaving the
already-committed lot. -/
def add_lot (s : DBState) (name location : String) (total_spots : Nat)
    (price_per_hour : ℚ) (commit1Ok commit2Ok : Bool) : AddLotResult × DBState :=
  if commit1Ok = false then (.commitError, s)
  else
    let lot : ParkingLot :=
      { id := s.next_lot_id
        name := name
        location := location
        total_spots := total_spots
        price_per_hour := price_per_hour }
    let s1 : DBState := { s with lots := s.lots ++ [lot], next_lot_id := s.next_lot_id + 1 }
    if commit2Ok = false then (.commitError, s1)
    else
      let newSpots : List ParkingSpot :=
        (List.range total_spots).map (fun i =>
          { id := s.next_spot_id + i
            spot_number := pad3 (i + 1)
            lot_id := lot.id
            is_occupied := false })
      (.added,
        { s1 with
          spots := s1.spots ++ newSpots
          next_spot_id := s.next_spot_id + total_spots })

/-- The `admin_required` decorator (src/app.py lines 27-34): the request
proceeds only when a session exists and `is_admin` is set. -/
def adminGate (sess : Option SessionData) : Bool :=
  match sess with
  | none => false
  | some sd => sd.is_admin

/-- Route `/admin/parking-lots/add` as dispatched: `add_lot` is guarded by
`@admin_required` (src/app.py line 102). -/
def add_lot_route (sess : Option SessionData) (s : DBState) (name location : String)
    (total_spots : Nat) (price_per_hour : ℚ) (commit1Ok commit2Ok : Bool) :
    AddLotResult × DBState :=
  if adminGate sess then add_lot s name location total_spots price_per_hour commit1Ok commit2Ok
  else (.authError, s)

/-- Route `/delete_lot/<int:lot_id>` as dispatched: the handler carries no
`@login_required` or `@admin_required` decorator (src/app.py line 224), so
the session is never consulted. -/
def delete_lot_route (sess : Option SessionData) (s : DBState) (lot_id : Nat) :
    DeleteResult × DBState :=
  delete_lot s lot_id

/-- The invariant claimed for spots, as a boolean check over a state: a
`is_occupied` flag of a spot is true iff exactly one booking referencing the
spot has status `"active"`. -/
def spotInvariant (s : DBState) : Bool :=
  s.spots.all (fun sp =>
    sp.is_occupied ==
      ((s.bookings.filter (fun b => b.spot_id == sp.id && b.status == "active")).length == 1))

/-- Iterated allocation: `bookN s uid lot veh n` is the state after `n`
successive `book_spot` requests (each with a successful commit). -/
def bookN (s : DBState) (uid lot_id : Nat) (veh : String) : Nat → DBState
  | 0 => s
  | n + 1 => (book_spot (bookN s uid lot_id veh n) uid lot_id veh true).snd

/-- Lot used by the concrete test states: id 1, price 10 per hour. -/
def lotA : ParkingLot :=
  { id := 1, name := "A", location := "Main", total_spots := 2, price_per_hour := 10 }

/-- Concrete state: lot 1 with two free spots, no bookings, app imported
at time 0. -/
def sBase : DBState :=
  { users := [{ id := 1, username := "admin", password := "h", is_admin := true },
              { id := 2, username := "alice", password := "h2", is_admin := false }]
    lots := [lotA]
    spots := [{ id := 1, spot_number := "001", lot_id := 1, is_occupied := false },
              { id := 2, spot_number := "002", lot_id := 1, is_occupied := true }]
    bookings := []
    next_lot_id := 2
    next_spot_id := 3
    next_booking_id := 1
    boot_time := 0 }

/-- Concrete state with one active booking: user 2 holds spot 1 of lot 1. -/
def sActive : DBState :=
  { users := sBase.users
    lots := [lotA]
    spots := [{ id := 1, spot_number := "001", lot_id := 1, is_occupied := true },
              { id := 2, spot_number := "002", lot_id := 1, is_occupied := false }]
    bookings := [{ id := 1, user_id := 2, spot_id := 1, vehicle_number := "KA-01",
                   entry_time := 0, exit_time := none, total_charge := none,
                   status := "active" }]
    next_lot_id := 2
    next_spot_id := 3
    next_booking_id := 2
    boot_time := 0 }

/-- Concrete reachable state obtained by: create lot 1 (one spot), user 1
books spot 1, checks out at t = 3600 (charge 10), then user 2 books
spot 1 again.  Booking 1 is completed, booking 2 is active on the same
spot, and the spot is occupied. -/
def sReCheckout : DBState :=
  { users := sBase.users
    lots := [lotA]
    spots := [{ id := 1, spot_number := "001", lot_id := 1, is_occupied := true }]
    bookings := [{ id := 1, user_id := 1, spot_id := 1, vehicle_number := "V1",
                   entry_time := 0, exit_time := some 3600, total_charge := some 10,
                   status := "completed" },
                 { id := 2, user_id := 2, spot_id := 1, vehicle_number := "V2",
                   entry_time := 0, exit_time := none, total_charge := none,
                   status := "active" }]
    next_lot_id := 2
    next_spot_id := 2
    next_booking_id := 3
    boot_time := 0 }

/-- Concrete state: lot 1 with two free spots and no bookings. -/
def sFreeLot : DBState :=
  { users := sBase.users
    lots := [lotA]
    spots := [{ id := 1, spot_number := "001", lot_id := 1, is_occupied := false },
              { id := 2, spot_number := "002", lot_id := 1, is_occupied := false }]
    bookings := []
    next_lot_id := 2
    next_spot_id := 3
    next_booking_id := 1
    boot_time := 0 }

/-! ### List helper lemmas -/

/-- Replacing, by a fixed record `c` that itself matches the key, every
element whose key matches: the first match found afterwards is `c`. -/
theorem find?_map_const {α : Type} (key : α → Nat) (i : Nat) (c : α)
    (hc : key c == i) :
    ∀ (l : List α) (b : α), l.find? (fun x => key x == i) = some b →
      (l.map (fun x => if key x == i then c else x)).find? (fun x => key x == i) = some c := by
  intro l
  induction l with
  | nil => intro b hb; simp [List.find?] at hb
  | cons h t ih =>
    intro b hb
    rw [List.map_cons]
    cases hp : key h == i with
    | true => simp [List.find?, hp, hc]
    | false =>
      simp only [List.find?, hp] at hb
      rw [if_neg (by simp [hp])]
      simp only [List.find?, hp]
      exact ih b hb

/-- Updating, by a key-preserving function `f`, every element whose key
matches: the first match found afterwards is `f` of the old first match. -/
theorem find?_map_adjust {α : Type} (key : α → Nat) (i : Nat) (f : α → α)
    (hf : ∀ x, key (f x) = key x) :
    ∀ (l : List α) (b : α), l.find? (fun x => key x == i) = some b →
      (l.map (fun x => if key x == i then f x else x)).find? (fun x => key x == i) = some (f b) := by
  intro l
  induction l with
  | nil => intro b hb; simp [List.find?] at hb
  | cons h t ih =>
    intro b hb
    rw [List.map_cons]
    cases hp : key h == i with
    | true =>
      simp only [List.find?, hp] at hb
      cases hb
      simp [List.find?, hp, hf]
    | false =>
      simp only [List.find?, hp] at hb
      rw [if_neg (by simp [hp])]
      simp only [List.find?, hp]
      exact ih b hb

/-- A map that fixes every element of the list is the identity. -/
theorem map_eq_self_of {α : Type} (f : α → α) :
    ∀ l : List α, (∀ x ∈ l, f x = x) → l.map f = l := by
  intro l
  induction l with
  | nil => intro _; rfl
  | cons h t ih =>
    intro hall
    simp only [List.map, hall h (by simp)]
    rw [ih (fun x hx => hall x (List.mem_cons_of_mem h hx))]

/-- `find?` returns nothing iff the filter by the same predicate is empty. -/
theorem find?_none_iff_filter_nil {α : Type} (p : α → Bool) :
    ∀ l : List α, l.find? p = none ↔ l.filter p = [] := by
  intro l
  induction l with
  | nil => simp [List.find?]
  | cons h t ih =>
    by_cases hp : p h = true
    · simp [List.find?, hp, List.filter]
    · simp only [Bool.not_eq_true] at hp
      simp [List.find?, hp, List.filter, ih]

/-- Mapping a key-preserving update over a list leaves the list of keys
unchanged. -/
theorem map_key_map {α : Type} (key : α → Nat) (f : α → α)
    (hf : ∀ x, key (f x) = key x) :
    ∀ l : List α, (l.map f).map key = l.map key := by
  intro l
  induction l with
  | nil => rfl
  | cons h t ih => simp [hf, ih]

/-- With pairwise-distinct keys, erasing the element with a given key
leaves a list in which no element has that key. -/
theorem eraseP_key_none {α : Type} (key : α → Nat) (i : Nat) :
    ∀ l : List α, (l.map key).Nodup →
      (l.eraseP (fun x => key x == i)).find? (fun x => key x == i) = none := by
  intro l
  induction l with
  | nil => intro _; rfl
  | cons h t ih =>
    intro hnd
    rw [List.map_cons, List.nodup_cons] at hnd
    cases hp : key h == i with
    | true =>
      simp only [List.eraseP_cons, hp, cond_true]
      rw [List.find?_eq_none]
      intro x hx hpx
      apply hnd.1
      have hxi : key x = i := by simpa using hpx
      have hhi : key h = i := by simpa using hp
      rw [hhi, ← hxi]
      exact List.mem_map_of_mem key hx
    | false =>
      simp only [List.eraseP_cons, hp, cond_false]
      simp only [List.find?, hp]
      exact ih hnd.2

/-- Claiming the first free spot of a lot removes exactly that spot from
the free spots of the lot, provided spot ids are pairwise distinct. -/
theorem filter_spotFree_after_claim (L : Nat) :
    ∀ (l : List ParkingSpot) (sp : ParkingSpot),
      (l.map (fun x => x.id)).Nodup →
      l.find? (spotFree L) = some sp →
      ((l.map (fun x => if x.id == sp.id then { x with is_occupied := true } else x)).filter
          (spotFree L)).length + 1 = (l.filter (spotFree L)).length := by
  intro l
  induction l with
  | nil => intro sp _ hf; simp [List.find?] at hf
  | cons h t ih =>
    intro sp hnd hf
    rw [List.map_cons, List.nodup_cons] at hnd
    cases hp : spotFree L h with
    | true =>
      simp only [List.find?, hp] at hf
      cases hf
      rw [List.map_cons, if_pos (by simp)]
      have hall : ∀ x ∈ t, (if x.id == h.id then { x with is_occupied := true } else x) = x := by
        intro x hx
        rw [if_neg]
        intro hbeq
        have hxe : x.id = h.id := by simpa using hbeq
        apply hnd.1
        rw [← hxe]
        exact List.mem_map_of_mem (fun y => y.id) hx
      rw [map_eq_self_of _ t hall]
      have hflip : spotFree L { h with is_occupied := true } = false := by
        simp [spotFree]
      simp [List.filter_cons, hp, hflip]
    | false =>
      simp only [List.find?, hp] at hf
      have hmem := List.mem_of_find?_eq_some hf
      have hneq : (h.id == sp.id) = false := by
        rw [beq_eq_false_iff_ne]
        intro heq
        apply hnd.1
        rw [heq]
        exact List.mem_map_of_mem (fun y => y.id) hmem
      rw [List.map_cons, if_neg (by simp [hneq])]
      simp only [List.filter_cons, hp, if_neg]
      simp only [Bool.false_eq_true, if_false]
      exact ih sp hnd.2 hf

/-- A successful allocation: result `booked`, free count down by exactly
one, and distinctness of spot ids is preserved. -/
theorem book_spot_success_step (s : DBState) (uid L : Nat) (veh : String) (sp : ParkingSpot)
    (hnd : (s.spots.map (fun x => x.id)).Nodup)
    (hf : s.spots.find? (spotFree L) = some sp) :
    (book_spot s uid L veh true).fst = .booked ∧
    freeCount (book_spot s uid L veh true).snd L + 1 = freeCount s L ∧
    ((book_spot s uid L veh true).snd.spots.map (fun x => x.id)).Nodup := by
  simp only [book_spot, hf, freeCount, if_pos]
  refine ⟨trivial, ?_, ?_⟩
  · exact filter_spotFree_after_claim L s.spots sp hnd hf
  · rw [map_key_map (fun x => x.id) _ (fun x => by cases hxc : x.id == sp.id <;> simp [hxc]) s.spots]
    exact hnd

/-- With no free spot, allocation reports no availability and leaves the
state untouched, for either commit outcome. -/
theorem book_spot_fail_step (s : DBState) (uid L : Nat) (veh : String)
    (hzero : freeCount s L = 0) :
    ∀ c, book_spot s uid L veh c = (.noAvailability, s) := by
  intro c
  have hnil : s.spots.filter (spotFree L) = [] := by
    rw [← List.length_eq_zero]
    exact hzero
  have hnone : s.spots.find? (spotFree L) = none :=
    (find?_none_iff_filter_nil (spotFree L) s.spots).mpr hnil
  simp only [book_spot, hnone]

/-- Unfolding one step of `bookN` at the front. -/
theorem bookN_shift (s : DBState) (uid L : Nat) (veh : String) :
    ∀ k, bookN s uid L veh (k + 1) =
      bookN (book_spot s uid L veh true).snd uid L veh k := by
  intro k
  induction k with
  | zero => rfl
  | succ n ih =>
    show (book_spot (bookN s uid L veh (n + 1)) uid L veh true).snd = _
    rw [ih]
    rfl

/-- Counting behaviour of iterated allocation: starting from `N` free
spots, the first `N` requests succeed, and the request after them reports
no availability and changes nothing. -/
theorem bookN_counting (uid L : Nat) (veh : String) :
    ∀ (N : Nat) (s : DBState),
      (s.spots.map (fun x => x.id)).Nodup →
      freeCount s L = N →
      (∀ k, k < N → (book_spot (bookN s uid L veh k) uid L veh true).fst = .booked) ∧
      (∀ c, book_spot (bookN s uid L veh N) uid L veh c =
        (.noAvailability, bookN s uid L veh N)) ∧
      (∀ k, k ≤ N → freeCount (bookN s uid L veh k) L = N - k) := by
  intro N
  induction N with
  | zero =>
    intro s hnd h0
    refine ⟨?_, ?_, ?_⟩
    · intro k hk
      exact absurd hk (Nat.not_lt_zero k)
    · exact book_spot_fail_step s uid L veh h0
    · intro k hk
      have hk0 : k = 0 := Nat.le_zero.mp hk
      subst hk0
      exact h0
  | succ n ih =>
    intro s hnd hN
    cases hf : s.spots.find? (spotFree L) with
    | none =>
      exfalso
      have hnil := (find?_none_iff_filter_nil (spotFree L) s.spots).mp hf
      rw [freeCount, hnil] at hN
      exact Nat.succ_ne_zero n hN.symm
    | some sp =>
      obtain ⟨hbk, hdec, hnd'⟩ := book_spot_success_step s uid L veh sp hnd hf
      have hfree1 : freeCount (book_spot s uid L veh true).snd L = n := by omega
      obtain ⟨ha, hb, hc⟩ := ih (book_spot s uid L veh true).snd hnd' hfree1
      refine ⟨?_, ?_, ?_⟩
      · intro k hk
        cases k with
        | zero => exact hbk
        | succ j =>
          rw [bookN_shift s uid L veh j]
          exact ha j (Nat.lt_of_succ_lt_succ hk)
      · intro c
        rw [bookN_shift s uid L veh n]
        exact hb c
      · intro k hk
        cases k with
        | zero => exact hN
        | succ j =>
          rw [bookN_shift s uid L veh j]
          rw [hc j (Nat.le_of_succ_le_succ hk)]
          omega

/-- Rounding to the nearest integer is monotone. -/
theorem round_mono_rat {a b : ℚ} (h : a ≤ b) : round a ≤ round b := by
  rw [round_eq, round_eq]
  exact Int.floor_mono (by linarith)

/-! ### Claim theorems -/

/-- C1: for every active booking checked out by its owning user, checkout
computes elapsed hours fractionally as (now − entry)/3600, sets the
total charge of the booking to round(elapsed × hourly price, 2), its exit
timestamp to now, its status to completed, and the occupied flag of the spot to
false; the four updates land together on a successful commit and none of
them lands on a failed one. -/
theorem exit_parking_active_checkout (s : DBState) (uid bid : Nat) (now : ℚ)
    (b : ParkingBooking) (sp : ParkingSpot) (lot : ParkingLot)
    (hb : s.bookings.find? (fun x => x.id == bid) = some b)
    (hstatus : b.status = "active")
    (howner : b.user_id = uid)
    (hsp : s.spots.find? (fun x => x.id == b.spot_id) = some sp)
    (hlot : s.lots.find? (fun x => x.id == sp.lot_id) = some lot) :
    ∀ commitOk,
      (commitOk = true →
        (exit_parking s uid bid now commitOk).fst =
          .completed (chargeFn b.entry_time lot.price_per_hour now) ∧
        (exit_parking s uid bid now commitOk).snd.bookings.find? (fun x => x.id == bid) =
          some { b with
                 exit_time := some now
                 total_charge := some (chargeFn b.entry_time lot.price_per_hour now)
                 status := "completed" } ∧
        (exit_parking s uid bid now commitOk).snd.spots.find? (fun x => x.id == b.spot_id) =
          some { sp with is_occupied := false }) ∧
      (commitOk = false → (exit_parking s uid bid now commitOk).snd = s) := by
  intro commitOk
  have hown : (b.user_id != uid) = false := by simp [howner]
  constructor
  · intro hcommit
    subst hcommit
    simp only [exit_parking, hb, hown, hsp, hlot, Bool.false_eq_true, if_false, if_true]
    have hpb0 := List.find?_some hb
    have hpb : (b.id == bid) = true := hpb0
    refine ⟨trivial, ?_, ?_⟩
    · exact find?_map_const (fun x => x.id) bid
        { b with
          exit_time := some now
          total_charge := some (chargeFn b.entry_time lot.price_per_hour now)
          status := "completed" }
        hpb s.bookings b hb
    · exact find?_map_adjust (fun x => x.id) b.spot_id
        (fun x => { x with is_occupied := false }) (fun x => rfl) s.spots sp hsp
  · intro hcommit
    subst hcommit
    simp only [exit_parking, hb, hown, hsp, hlot, Bool.false_eq_true, if_false]

/-- C8: a checkout request by a user who does not own the target booking
fails as unauthorized and leaves the whole state unchanged. -/
theorem exit_parking_unauthorized (s : DBState) (uid bid : Nat) (now : ℚ)
    (b : ParkingBooking)
    (hb : s.bookings.find? (fun x => x.id == bid) = some b)
    (hnotowner : b.user_id ≠ uid) :
    ∀ commitOk, exit_parking s uid bid now commitOk = (.unauthorized, s) := by
  intro commitOk
  have hown : (b.user_id != uid) = true := by simpa using hnotowner
  simp only [exit_parking, hb, hown, if_true]

/-- C9 counterexample: the checkout charge is not monotone in elapsed time
for every hourly price.  The handler accepts any price (src/app.py line
108 converts the form field with `float(...)` and nothing validates it),
and with price −1, entry 0, the charge after 2 hours (−2) is strictly
below the charge after 1 hour (−1) although 7200 > 3600. -/
theorem chargeFn_not_monotone :
    (3600 : ℚ) < 7200 ∧ chargeFn 0 (-1) 7200 < chargeFn 0 (-1) 3600 := by
  constructor
  · norm_num
  · norm_num [chargeFn, roundTo2, round_eq]

/-- C9 amended: for a fixed entry timestamp and a fixed nonnegative hourly
price, the checkout charge round((t − entry)/3600 × price, 2) is monotone
in the exit time. -/
theorem chargeFn_monotone_nonneg (e P t1 t2 : ℚ) (hP : 0 ≤ P) (h : t1 < t2) :
    chargeFn e P t1 ≤ chargeFn e P t2 := by
  unfold chargeFn roundTo2
  have h1 : (t1 - e) / 3600 * P * 100 ≤ (t2 - e) / 3600 * P * 100 := by
    have hd : (t1 - e) / 3600 ≤ (t2 - e) / 3600 := by
      apply div_le_div_of_nonneg_right ?hx ?hy
      · linarith
      · norm_num
    nlinarith
  have h2 := round_mono_rat h1
  have h3 : ((round ((t1 - e) / 3600 * P * 100) : ℤ) : ℚ) ≤
      ((round ((t2 - e) / 3600 * P * 100) : ℤ) : ℚ) := by
    exact_mod_cast h2
  linarith

/-- C9 amended, witness: price 10 per hour, entry 0, exit times 3600 and
7200. -/
theorem chargeFn_monotone_nonneg_witness :
    (0 : ℚ) ≤ 10 ∧ (3600 : ℚ) < 7200 ∧ chargeFn 0 10 3600 ≤ chargeFn 0 10 7200 :=
  ⟨by norm_num, by norm_num,
    chargeFn_monotone_nonneg 0 10 3600 7200 (by norm_num) (by norm_num)⟩

/-- C1 witness: in `sActive`, user 2 checks out booking 1 at t = 7200;
elapsed 2 h at price 10 gives charge 20, and a failed commit leaves the
state untouched. -/
theorem exit_parking_active_checkout_witness :
    ((exit_parking sActive 2 1 7200 true).fst = .completed (chargeFn 0 10 7200) ∧
     (exit_parking sActive 2 1 7200 true).snd.bookings.find? (fun x => x.id == 1) =
       some { id := 1, user_id := 2, spot_id := 1, vehicle_number := "KA-01",
              entry_time := 0, exit_time := some 7200,
              total_charge := some (chargeFn 0 10 7200), status := "completed" } ∧
     (exit_parking sActive 2 1 7200 true).snd.spots.find? (fun x => x.id == 1) =
       some { id := 1, spot_number := "001", lot_id := 1, is_occupied := false }) ∧
    (exit_parking sActive 2 1 7200 false).snd = sActive := by
  constructor
  · exact (exit_parking_active_checkout sActive 2 1 7200
      { id := 1, user_id := 2, spot_id := 1, vehicle_number := "KA-01",
        entry_time := 0, exit_time := none, total_charge := none, status := "active" }
      { id := 1, spot_number := "001", lot_id := 1, is_occupied := true }
      lotA rfl rfl rfl rfl rfl true).1 rfl
  · exact (exit_parking_active_checkout sActive 2 1 7200
      { id := 1, user_id := 2, spot_id := 1, vehicle_number := "KA-01",
        entry_time := 0, exit_time := none, total_charge := none, status := "active" }
      { id := 1, spot_number := "001", lot_id := 1, is_occupied := true }
      lotA rfl rfl rfl rfl rfl false).2 rfl

/-- C8 witness: user 1 tries to check out booking 1 of `sActive`, which is
owned by user 2. -/
theorem exit_parking_unauthorized_witness :
    exit_parking sActive 1 1 7200 true = (.unauthorized, sActive) :=
  exit_parking_unauthorized sActive 1 1 7200
    { id := 1, user_id := 2, spot_id := 1, vehicle_number := "KA-01",
      entry_time := 0, exit_time := none, total_charge := none, status := "active" }
    rfl (by decide) true

/-- C2 code-bug evidence: allocation in `sBase` succeeds, claims the first
free spot, creates the booking active with exit and charge unset — but
its entry timestamp is the import-time `boot_time` of src/models.py line
34, not the request time (here 3600): `default=datetime.now()` was
evaluated once at class definition. -/
theorem book_spot_entry_time_stale :
    (book_spot sBase 2 1 "KA-01" true).fst = .booked ∧
    (book_spot sBase 2 1 "KA-01" true).snd.bookings.find? (fun b => b.id == 1) =
      some { id := 1, user_id := 2, spot_id := 1, vehicle_number := "KA-01",
             entry_time := sBase.boot_time, exit_time := none, total_charge := none,
             status := "active" } ∧
    (book_spot sBase 2 1 "KA-01" true).snd.spots.find? (fun sp => sp.id == 1) =
      some { id := 1, spot_number := "001", lot_id := 1, is_occupied := true } ∧
    sBase.boot_time ≠ 3600 := by
  decide

/-- C3 code-bug evidence: `sReCheckout` (reachable: book, check out at
3600, rebook the same spot) satisfies the occupancy invariant; re-issuing
the checkout of the already-completed booking 1 clears the occupied
flag of the spot although booking 2 is still active on it, so the invariant
fails afterwards. -/
theorem exit_parking_completed_breaks_invariant :
    spotInvariant sReCheckout = true ∧
    (sReCheckout.bookings.find? (fun b => b.id == 1)).map (fun b => b.status) =
      some "completed" ∧
    spotInvariant (exit_parking sReCheckout 1 1 10800 true).snd = false := by
  refine ⟨by decide, by decide, by rfl⟩

/-- C6 code-bug evidence: booking 1 of `sReCheckout` is completed with
exit time 3600 and charge 10; a second checkout request at t = 10800
rewrites both fields, to 10800 and 30. -/
theorem exit_parking_rewrites_completed :
    (sReCheckout.bookings.find? (fun b => b.id == 1)).map
      (fun b => (b.status, b.exit_time, b.total_charge)) =
      some ("completed", some 3600, some 10) ∧
    ((exit_parking sReCheckout 1 1 10800 true).snd.bookings.find? (fun b => b.id == 1)).map
      (fun b => (b.exit_time, b.total_charge)) = some (some 10800, some 30) ∧
    some (10800 : ℚ) ≠ some (3600 : ℚ) ∧ some (30 : ℚ) ≠ some (10 : ℚ) := by
  refine ⟨by decide, ?_, by norm_num, by norm_num⟩
  simp [exit_parking, sReCheckout, List.find?]
  norm_num [chargeFn, roundTo2, round_eq, lotA]

/-- Shared core for lot deletion with no occupied spot: the request
succeeds, the lot row and all its spot rows are gone, everything else is
retained. -/
theorem delete_lot_success (s : DBState) (L : Nat) (lot : ParkingLot)
    (hlot : s.lots.find? (fun l => l.id == L) = some lot)
    (hndl : (s.lots.map (fun l => l.id)).Nodup)
    (hocc : occupiedCount s lot.id = 0) :
    (delete_lot s L).fst = .deleted ∧
    (delete_lot s L).snd.lots.find? (fun l => l.id == lot.id) = none ∧
    (∀ l ∈ s.lots, l.id ≠ lot.id → l ∈ (delete_lot s L).snd.lots) ∧
    (∀ sp ∈ (delete_lot s L).snd.spots, sp.lot_id ≠ lot.id) ∧
    (∀ sp ∈ s.spots, sp.lot_id ≠ lot.id → sp ∈ (delete_lot s L).snd.spots) ∧
    (delete_lot s L).snd.bookings = s.bookings ∧
    (delete_lot s L).snd.users = s.users := by
  have hnotlt : ¬(0 < occupiedCount s lot.id) := by omega
  simp only [delete_lot, hlot, if_neg hnotlt]
  refine ⟨trivial, ?_, ?_, ?_, ?_, trivial, trivial⟩
  · exact eraseP_key_none (fun l => l.id) lot.id s.lots hndl
  · intro l hl hne
    exact (List.mem_eraseP_of_neg (by simp [hne])).mpr hl
  · intro sp hsp
    have hm := List.mem_filter.mp hsp
    intro he
    rw [he] at hm
    simp at hm
  · intro sp hsp hne
    exact List.mem_filter.mpr ⟨hsp, by simp [hne]⟩

/-- C5: deleting a lot fails with a conflict and changes nothing while
any of its spots is occupied; with zero occupied spots it removes the
spot rows of the lot and then the lot row, leaving no spot that references the
deleted lot and keeping every other row. -/
theorem delete_lot_spec (s : DBState) (L : Nat) (lot : ParkingLot)
    (hlot : s.lots.find? (fun l => l.id == L) = some lot)
    (hndl : (s.lots.map (fun l => l.id)).Nodup) :
    (0 < occupiedCount s lot.id → delete_lot s L = (.conflict, s)) ∧
    (occupiedCount s lot.id = 0 →
      (delete_lot s L).fst = .deleted ∧
      (delete_lot s L).snd.lots.find? (fun l => l.id == lot.id) = none ∧
      (∀ l ∈ s.lots, l.id ≠ lot.id → l ∈ (delete_lot s L).snd.lots) ∧
      (∀ sp ∈ (delete_lot s L).snd.spots, sp.lot_id ≠ lot.id) ∧
      (∀ sp ∈ s.spots, sp.lot_id ≠ lot.id → sp ∈ (delete_lot s L).snd.spots) ∧
      (delete_lot s L).snd.bookings = s.bookings ∧
      (delete_lot s L).snd.users = s.users) := by
  constructor
  · intro hpos
    simp only [delete_lot, hlot, if_pos hpos]
  · intro hocc
    exact delete_lot_success s L lot hlot hndl hocc

/-- C5 witness: deleting lot 1 of `sFreeLot` (both spots free) removes the
lot and both spots; the conflict branch is vacuous there. -/
theorem delete_lot_spec_witness :
    (sFreeLot.lots.find? (fun l => l.id == 1) = some lotA ∧
     occupiedCount sFreeLot lotA.id = 0) ∧
    ((0 < occupiedCount sFreeLot lotA.id → delete_lot sFreeLot 1 = (.conflict, sFreeLot)) ∧
     (occupiedCount sFreeLot lotA.id = 0 →
       (delete_lot sFreeLot 1).fst = .deleted ∧
       (delete_lot sFreeLot 1).snd.lots.find? (fun l => l.id == lotA.id) = none ∧
       (∀ l ∈ sFreeLot.lots, l.id ≠ lotA.id → l ∈ (delete_lot sFreeLot 1).snd.lots) ∧
       (∀ sp ∈ (delete_lot sFreeLot 1).snd.spots, sp.lot_id ≠ lotA.id) ∧
       (∀ sp ∈ sFreeLot.spots, sp.lot_id ≠ lotA.id → sp ∈ (delete_lot sFreeLot 1).snd.spots) ∧
       (delete_lot sFreeLot 1).snd.bookings = sFreeLot.bookings ∧
       (delete_lot sFreeLot 1).snd.users = sFreeLot.users)) :=
  ⟨⟨by decide, by decide⟩, delete_lot_spec sFreeLot 1 lotA (by decide) (by decide)⟩

/-- C10: the delete-lot route enforces no authentication or authorization:
for every session — none, or a logged-in non-administrator — a delete
request against a lot with zero occupied spots removes the lot and its
spots, while the admin-decorated add-lot route rejects every
non-administrator session unchanged. -/
theorem delete_lot_no_auth (sess : Option SessionData) (s : DBState) (L : Nat)
    (lot : ParkingLot)
    (hlot : s.lots.find? (fun l => l.id == L) = some lot)
    (hndl : (s.lots.map (fun l => l.id)).Nodup)
    (hocc : occupiedCount s lot.id = 0) :
    (delete_lot_route sess s L).fst = .deleted ∧
    (delete_lot_route sess s L).snd.lots.find? (fun l => l.id == lot.id) = none ∧
    (∀ sp ∈ (delete_lot_route sess s L).snd.spots, sp.lot_id ≠ lot.id) ∧
    (∀ sd : SessionData, sd.is_admin = false →
      ∀ name loc total price c1 c2,
        add_lot_route (some sd) s name loc total price c1 c2 = (.authError, s)) ∧
    (∀ name loc total price c1 c2,
      add_lot_route none s name loc total price c1 c2 = (.authError, s)) := by
  obtain ⟨h1, h2, _, h4, _, _, _⟩ := delete_lot_success s L lot hlot hndl hocc
  refine ⟨h1, h2, h4, ?_, ?_⟩
  · intro sd hsd name loc total price c1 c2
    simp [add_lot_route, adminGate, hsd]
  · intro name loc total price c1 c2
    simp [add_lot_route, adminGate]

/-- C10 witness: with no session at all, deleting lot 1 of `sFreeLot`
succeeds, and a non-administrator session cannot reach `add_lot`. -/
theorem delete_lot_no_auth_witness :
    (sFreeLot.lots.find? (fun l => l.id == 1) = some lotA ∧
     occupiedCount sFreeLot lotA.id = 0) ∧
    ((delete_lot_route none sFreeLot 1).fst = .deleted ∧
     (delete_lot_route none sFreeLot 1).snd.lots.find? (fun l => l.id == lotA.id) = none ∧
     (∀ sp ∈ (delete_lot_route none sFreeLot 1).snd.spots, sp.lot_id ≠ lotA.id) ∧
     (∀ sd : SessionData, sd.is_admin = false →
       ∀ name loc total price c1 c2,
         add_lot_route (some sd) sFreeLot name loc total price c1 c2 =
           (.authError, sFreeLot)) ∧
     (∀ name loc total price c1 c2,
       add_lot_route none sFreeLot name loc total price c1 c2 =
         (.authError, sFreeLot))) :=
  ⟨⟨by decide, by decide⟩,
    delete_lot_no_auth none sFreeLot 1 lotA (by decide) (by decide) (by decide)⟩

/-- C4: with no free spot in the lot, allocation fails with no
availability and no state change; with `N` free spots, each of the first
`N` requests succeeds and lowers the free count of the lot by exactly one, and
the request after them fails with no availability and no state change. -/
theorem book_spot_counting (s : DBState) (uid L : Nat) (veh : String) (N : Nat)
    (hnd : (s.spots.map (fun x => x.id)).Nodup)
    (hN : freeCount s L = N) :
    (freeCount s L = 0 → ∀ c, book_spot s uid L veh c = (.noAvailability, s)) ∧
    (∀ k, k < N → (book_spot (bookN s uid L veh k) uid L veh true).fst = .booked ∧
      freeCount (bookN s uid L veh (k + 1)) L + 1 = freeCount (bookN s uid L veh k) L) ∧
    (∀ c, book_spot (bookN s uid L veh N) uid L veh c =
      (.noAvailability, bookN s uid L veh N)) := by
  obtain ⟨ha, hb, hc⟩ := bookN_counting uid L veh N s hnd hN
  refine ⟨?_, ?_, hb⟩
  · intro h0 c
    exact book_spot_fail_step s uid L veh h0 c
  · intro k hk
    refine ⟨ha k hk, ?_⟩
    have h1 := hc (k + 1) (by omega)
    have h2 := hc k (by omega)
    omega

/-- C4 witness: lot 1 of `sFreeLot` has two free spots; the first two
allocations succeed, each lowering the free count by one, and the third
fails with no availability. -/
theorem book_spot_counting_witness :
    ((sFreeLot.spots.map (fun x => x.id)).Nodup ∧ freeCount sFreeLot 1 = 2) ∧
    ((freeCount sFreeLot 1 = 0 →
        ∀ c, book_spot sFreeLot 2 1 "KA-05" c = (.noAvailability, sFreeLot)) ∧
     (∀ k, k < 2 →
        (book_spot (bookN sFreeLot 2 1 "KA-05" k) 2 1 "KA-05" true).fst = .booked ∧
        freeCount (bookN sFreeLot 2 1 "KA-05" (k + 1)) 1 + 1 =
          freeCount (bookN sFreeLot 2 1 "KA-05" k) 1) ∧
     (∀ c, book_spot (bookN sFreeLot 2 1 "KA-05" 2) 2 1 "KA-05" c =
        (.noAvailability, bookN sFreeLot 2 1 "KA-05" 2))) :=
  ⟨⟨by decide, by decide⟩,
    book_spot_counting sFreeLot 2 1 "KA-05" 2 (by decide) (by decide)⟩

/-- C7: creating a lot (both commits succeeding) records the lot and then
exactly `total` spot rows belonging to it, labeled with the zero-padded
sequence 001, 002, ..., each unoccupied. -/
theorem add_lot_creates_spots (s : DBState) (name loc : String) (total : Nat) (price : ℚ)
    (hfresh : ∀ sp ∈ s.spots, sp.lot_id ≠ s.next_lot_id) :
    (add_lot s name loc total price true true).fst = .added ∧
    { id := s.next_lot_id, name := name, location := loc, total_spots := total,
      price_per_hour := price } ∈ (add_lot s name loc total price true true).snd.lots ∧
    ((add_lot s name loc total price true true).snd.spots.filter
        (fun sp => sp.lot_id == s.next_lot_id)).length = total ∧
    ((add_lot s name loc total price true true).snd.spots.filter
        (fun sp => sp.lot_id == s.next_lot_id)).map (fun sp => sp.spot_number) =
      (List.range total).map (fun i => pad3 (i + 1)) ∧
    (∀ sp ∈ (add_lot s name loc total price true true).snd.spots.filter
        (fun sp => sp.lot_id == s.next_lot_id), sp.is_occupied = false) := by
  have hfil : (add_lot s name loc total price true true).snd.spots.filter
      (fun sp => sp.lot_id == s.next_lot_id) =
      (List.range total).map (fun i =>
        ({ id := s.next_spot_id + i, spot_number := pad3 (i + 1),
           lot_id := s.next_lot_id, is_occupied := false } : ParkingSpot)) := by
    show (s.spots ++ (List.range total).map _).filter _ = _
    rw [List.filter_append]
    have h1 : s.spots.filter (fun sp => sp.lot_id == s.next_lot_id) = [] := by
      rw [List.filter_eq_nil_iff]
      intro sp hsp
      simp [hfresh sp hsp]
    have h2 : ((List.range total).map (fun i =>
        ({ id := s.next_spot_id + i, spot_number := pad3 (i + 1),
           lot_id := s.next_lot_id, is_occupied := false } : ParkingSpot))).filter
        (fun sp => sp.lot_id == s.next_lot_id) = (List.range total).map (fun i =>
        ({ id := s.next_spot_id + i, spot_number := pad3 (i + 1),
           lot_id := s.next_lot_id, is_occupied := false } : ParkingSpot)) := by
      rw [List.filter_eq_self]
      intro sp hsp
      obtain ⟨i, _, rfl⟩ := List.mem_map.mp hsp
      simp
    rw [h1, h2]
    rfl
  refine ⟨rfl, ?_, ?_, ?_, ?_⟩
  · show _ ∈ s.lots ++ [_]
    simp
  · rw [hfil]
    simp
  · rw [hfil, List.map_map]
    rfl
  · rw [hfil]
    intro sp hsp
    obtain ⟨i, _, rfl⟩ := List.mem_map.mp hsp
    rfl

/-- C7 witness: adding lot "B" with 2 spots at price 5 to `sBase` creates
spots "001" and "002" for lot 2, both free. -/
theorem add_lot_creates_spots_witness :
    (∀ sp ∈ sBase.spots, sp.lot_id ≠ sBase.next_lot_id) ∧
    ((add_lot sBase "B" "Airport" 2 5 true true).fst = .added ∧
     { id := sBase.next_lot_id, name := "B", location := "Airport", total_spots := 2,
       price_per_hour := (5 : ℚ) } ∈ (add_lot sBase "B" "Airport" 2 5 true true).snd.lots ∧
     ((add_lot sBase "B" "Airport" 2 5 true true).snd.spots.filter
         (fun sp => sp.lot_id == sBase.next_lot_id)).length = 2 ∧
     ((add_lot sBase "B" "Airport" 2 5 true true).snd.spots.filter
         (fun sp => sp.lot_id == sBase.next_lot_id)).map (fun sp => sp.spot_number) =
       (List.range 2).map (fun i => pad3 (i + 1)) ∧
     (∀ sp ∈ (add_lot sBase "B" "Airport" 2 5 true true).snd.spots.filter
         (fun sp => sp.lot_id == sBase.next_lot_id), sp.is_occupied = false)) :=
  ⟨by decide, add_lot_creates_spots sBase "B" "Airport" 2 5 (by decide)⟩
